import Mathlib

/-!
Verification development for the SumoSound proximity-gated audio-source pool.

Shallow embedding of:
- `Vehicle._calculate_response_from_curve` (SumoSound/Vehicle.py, lines 48-68)
- the `VehicleSound` lifecycle (SumoSound/Sounds.py)
- `Vehicle.add_sound` / `Vehicle.update_sounds` / `Vehicle.get_velocity_vector`
  (SumoSound/Vehicle.py)
- `EgoVehicle.get_orientation_vector` (SumoSound/Ego.py, lines 116-121)
- the admission phase of `Simulation.update` (SumoSound/Simulation.py, lines 86-100)

Numeric state is modelled over an arbitrary linear ordered field (instantiated at `ℚ`
for executable checks and at `ℝ` where the code uses trigonometry).  Calls into the
excluded OpenAL backend are recorded as an explicit event trace, so that "forwards to
the backend only while enabled" is an observable property of the model.
-/

namespace SumoSound

variable {α : Type} [LinearOrderedField α]

/-- The interpolation loop of `Vehicle._calculate_response_from_curve` (Vehicle.py,
lines 64-68): scan consecutive pairs of control points and, at the first point `i`
with `x >= curve[i][0]`, return `y0 + (x - x0) * (y1 - y0) / (x1 - x0)` computed
between point `i` and point `i+1`.  Falling off the end of the loop (Python returns
`None`) is modelled as `none`. -/
def interpLoop : List (α × α) → α → Option α
  | p0 :: p1 :: rest, x =>
    if p0.1 ≤ x then some (p0.2 + (x - p0.1) * (p1.2 - p0.2) / (p1.1 - p0.1))
    else interpLoop (p1 :: rest) x
  | _, _ => none

/-- Embedding of `Vehicle._calculate_response_from_curve` (Vehicle.py, lines 48-68): clip to the
first point's output for `x <= curve[0][0]`, to the last point's output for
`x >= curve[-1][0]`, and otherwise run the interpolation loop.  `none` models the
IndexError raised on an empty curve (`curve[0]` fails). -/
def calculate_response_from_curve (curve : List (α × α)) (x : α) : Option α :=
  match curve with
  | [] => none
  | c0 :: rest =>
    if x ≤ c0.1 then some c0.2
    else if (rest.getLastD c0).1 ≤ x then some (rest.getLastD c0).2
    else interpLoop (c0 :: rest) x

/-- Backend (OpenAL) calls made by a `VehicleSound`, recorded as a trace. -/
inductive SndEvent (α : Type) where
  | create
  | destroy
  | setLooping (b : Bool)
  | setSampleOffset (n : Nat)
  | setPosition (p : α × α × α)
  | setVelocity (v : α × α × α)
  | setGain (g : α)
  | play
  | pause
deriving DecidableEq

/-- State of a `VehicleSound` (Sounds.py, lines 12-51).  The audio-buffer bookkeeping
(`_buffers`, `sample_count`) belongs to the excluded audio backend and is omitted;
`source` records whether a backend source handle is currently held (Python's
`self.source`, which is either `None` or a live `Source`). -/
structure VehicleSound (α : Type) where
  file : String
  base_gain : α
  relative_position : α × α × α
  source : Option Unit
  enabled : Bool
  playing : Bool
  looping : Bool
  random_pos : Bool
  position : α × α × α
  velocity : α × α × α
deriving DecidableEq

namespace VehicleSound

/-- Embedding of `VehicleSound.play` (Sounds.py, lines 70-74): sets the cached playing flag
unconditionally and forwards to the backend only while enabled. -/
def play (s : VehicleSound α) : VehicleSound α × List (SndEvent α) :=
  ({ s with playing := true }, if s.enabled then [SndEvent.play] else [])

/-- Embedding of `VehicleSound.pause` (Sounds.py, lines 76-80): clears the cached playing flag
unconditionally and forwards to the backend only while enabled. -/
def pause (s : VehicleSound α) : VehicleSound α × List (SndEvent α) :=
  ({ s with playing := false }, if s.enabled then [SndEvent.pause] else [])

/-- Embedding of `VehicleSound.set_gain` (Sounds.py, lines 82-86): while enabled, forwards
`base_gain * gain` to the backend; the gain is not stored in any attribute. -/
def set_gain (s : VehicleSound α) (gain : α) : VehicleSound α × List (SndEvent α) :=
  (s, if s.enabled then [SndEvent.setGain (s.base_gain * gain)] else [])

/-- Embedding of `VehicleSound.set_position` (Sounds.py, lines 88-97): caches the position
unconditionally and forwards to the backend only while enabled. -/
def set_position (s : VehicleSound α) (p : α × α × α) :
    VehicleSound α × List (SndEvent α) :=
  ({ s with position := p }, if s.enabled then [SndEvent.setPosition p] else [])

/-- Embedding of `VehicleSound.set_velocity` (Sounds.py, lines 99-108): caches the velocity
unconditionally and forwards to the backend only while enabled. -/
def set_velocity (s : VehicleSound α) (v : α × α × α) :
    VehicleSound α × List (SndEvent α) :=
  ({ s with velocity := v }, if s.enabled then [SndEvent.setVelocity v] else [])

/-- Embedding of `VehicleSound.disable` (Sounds.py, lines 64-68): destroys the backend source only
if one is held (the `if self.source is not None` guard), clears the handle and the
enabled flag, and touches no other cached state. -/
def disable (s : VehicleSound α) : VehicleSound α × List (SndEvent α) :=
  ({ s with source := none, enabled := false },
    if s.source.isSome then [SndEvent.destroy] else [])

/-- Embedding of `VehicleSound.enable` (Sounds.py, lines 53-62): acquires a backend source, applies
the loop flag, applies a random start offset when `random_pos` is set (the sample
drawn by `random.randint` is the parameter `off`), marks the sound enabled, then
reapplies the cached position, velocity and play state through the ordinary setters. -/
def enable (off : Nat) (s : VehicleSound α) : VehicleSound α × List (SndEvent α) :=
  let s0 : VehicleSound α := { s with source := some (), enabled := true }
  let ev0 : List (SndEvent α) :=
    [SndEvent.create, SndEvent.setLooping s.looping] ++
      (if s.random_pos then [SndEvent.setSampleOffset off] else [])
  let r1 := set_position s0 s0.position
  let r2 := set_velocity r1.1 r1.1.velocity
  let r3 := if r2.1.playing then play r2.1 else (r2.1, [])
  (r3.1, ev0 ++ r1.2 ++ r2.2 ++ r3.2)

end VehicleSound

/-- A response curve as stored by `Vehicle.add_sound` (Vehicle.py): either a list of
control points or a callable (`callable(self.response_curves[i])` distinguishes the
two in `update_sounds`). -/
inductive RespCurve (α : Type) where
  | pts (l : List (α × α))
  | fn (f : α → α)

/-- The Python exceptions that the embedded `Vehicle` methods can raise. -/
inductive PyError where
  | valueError (msg : String)
  | typeError (msg : String)
  | indexError
deriving DecidableEq

/-- Well-formedness of a stored response curve: a point list must be non-empty
(`_calculate_response_from_curve` raises IndexError on an empty list); a callable is
always usable. -/
def curveWF : RespCurve α → Prop
  | RespCurve.pts l => l ≠ []
  | RespCurve.fn _ => True

/-- State of a `Vehicle` (Vehicle.py, lines 17-29): kinematic state plus the three
parallel lists filled by `add_sound`.  A `none` entry of `response_curves` is Python's
`None` stored for a sound added without a curve. -/
structure Vehicle (α : Type) where
  id : String
  position : α × α × α
  angle : α
  speed : α
  acceleration : α
  enabled : Bool
  sounds : List (VehicleSound α)
  signals : List (Option String)
  response_curves : List (Option (RespCurve α))

/-- The dynamic attribute lookup `self.__getattribute__(self.signals[i])` of
`Vehicle.update_sounds` (Vehicle.py, line 81), restricted to the scalar kinematic
signal attributes of the base `Vehicle` class; any other name is unresolved and
triggers the AttributeError branch. -/
def vgetattr (v : Vehicle α) : String → Option α
  | "angle" => some v.angle
  | "speed" => some v.speed
  | "acceleration" => some v.acceleration
  | _ => none

/-- Embedding of `Vehicle.add_sound` (Vehicle.py, lines 31-46): raises TypeError when a signal is
given without a response curve (the check precedes every append, so a raise leaves
the three lists untouched); otherwise appends the triple to all three lists. -/
def add_sound (v : Vehicle α) (vehicle_sound : VehicleSound α) (signal : Option String)
    (response_curve : Option (RespCurve α)) : Except PyError (Vehicle α) :=
  if signal.isSome && response_curve.isNone then
    Except.error (PyError.typeError ("If signal is given, response_curve must also be given."))
  else
    Except.ok { v with
      sounds := v.sounds ++ [vehicle_sound]
      signals := v.signals ++ [signal]
      response_curves := v.response_curves ++ [response_curve] }

/-- Python's float modulo `x % y` for positive `y` (`((360 - angle + 90) % 360)` in
Vehicle.py line 71 and Ego.py lines 66 and 118): the remainder with the sign of the
divisor. -/
noncomputable def pymod (x y : ℝ) : ℝ := x - y * (Int.floor (x / y) : ℝ)

/-- The compass-bearing to geometric-angle conversion shared by
`Vehicle.get_velocity_vector` (Vehicle.py, line 71), `Ego.set_angle` (Ego.py, line 66)
and `EgoVehicle.get_orientation_vector` (Ego.py, line 118):
`((360 - angle + 90) % 360) * pi / 180`. -/
noncomputable def geometric_angle (angle : ℝ) : ℝ :=
  pymod (360 - angle + 90) 360 * Real.pi / 180

/-- Embedding of `Vehicle.get_velocity_vector` (Vehicle.py, lines 70-74): the speed decomposed
along the heading, `(speed * cos g, speed * sin g, 0)`. -/
noncomputable def get_velocity_vector (v : Vehicle ℝ) : ℝ × ℝ × ℝ :=
  (v.speed * Real.cos (geometric_angle v.angle),
   v.speed * Real.sin (geometric_angle v.angle), 0)

/-- Embedding of `EgoVehicle.get_orientation_vector` (Ego.py, lines 116-121): the unit forward
vector `(cos g, sin g, 0)` derived from the compass heading. -/
noncomputable def get_orientation_vector (angle : ℝ) : ℝ × ℝ × ℝ :=
  (Real.cos (geometric_angle angle), Real.sin (geometric_angle angle), 0)

/-- The loop body of `Vehicle.update_sounds` (Vehicle.py, lines 76-92), recursing over
the three parallel lists.  A `none` signal is skipped (`continue`) without touching
the curve entry beyond advancing the index; a signal that does not resolve raises
ValueError (the AttributeError branch, line 83); an out-of-range parallel-list index
raises IndexError; a `None` curve reached with a resolving signal raises TypeError
(`None[0]` in `_calculate_response_from_curve`); otherwise the gain is computed from
the curve (callable or point list) and the sound's gain, absolute position
(`relative_position + vehicle position`) and velocity vector are pushed through the
`VehicleSound` setters. -/
noncomputable def update_sounds_aux (v : Vehicle ℝ) :
    List (VehicleSound ℝ) → List (Option String) → List (Option (RespCurve ℝ)) →
    Except PyError (List (VehicleSound ℝ))
  | [], _, _ => Except.ok []
  | _ :: _, [], _ => Except.error PyError.indexError
  | snd :: ss, sig :: sigs, ocs =>
    match sig with
    | none =>
      match update_sounds_aux v ss sigs ocs.tail with
      | Except.error e => Except.error e
      | Except.ok rest => Except.ok (snd :: rest)
    | some name =>
      match vgetattr v name with
      | none => Except.error (PyError.valueError ("Signal " ++ name ++ " not in class"))
      | some val =>
        match ocs with
        | [] => Except.error PyError.indexError
        | oc :: ocs2 =>
          match oc with
          | none => Except.error (PyError.typeError ("NoneType is not subscriptable"))
          | some c =>
            match (match c with
                   | RespCurve.fn f => some (f val)
                   | RespCurve.pts l => calculate_response_from_curve l val) with
            | none => Except.error PyError.indexError
            | some gain =>
              let s1 := (VehicleSound.set_gain snd gain).1
              let s2 := (VehicleSound.set_position s1
                (snd.relative_position.1 + v.position.1,
                 snd.relative_position.2.1 + v.position.2.1,
                 snd.relative_position.2.2 + v.position.2.2)).1
              let s3 := (VehicleSound.set_velocity s2 (get_velocity_vector v)).1
              match update_sounds_aux v ss sigs ocs2 with
              | Except.error e => Except.error e
              | Except.ok rest => Except.ok (s3 :: rest)

/-- Embedding of `Vehicle.update_sounds` (Vehicle.py, lines 76-92) on the vehicle's own lists. -/
noncomputable def update_sounds (v : Vehicle ℝ) : Except PyError (Vehicle ℝ) :=
  match update_sounds_aux v v.sounds v.signals v.response_curves with
  | Except.error e => Except.error e
  | Except.ok ss => Except.ok { v with sounds := ss }

/-- The per-emitter state used by the admission phase of `Simulation.update`
(Simulation.py, lines 86-100): planar position (only `position[0]` and `position[1]`
enter the distance), the `enabled` flag, and whether the emitter currently holds a
backend source.  Each emitter is modelled as holding one backend source, the spec's
unit of backend capacity. -/
structure SimVehicle where
  pos : ℚ × ℚ
  enabled : Bool
  hasSource : Bool
deriving DecidableEq

/-- The finite pool of backend sources: its true capacity and the number in use. -/
structure Backend where
  cap : Nat
  used : Nat
deriving DecidableEq

/-- Embedding of `Vehicle.enable` (Vehicle.py, lines 94-99) as seen by the admission loop: the
`enabled` flag is set first (line 95); acquiring the backend source then succeeds iff
the pool has room, and on exhaustion the ALError propagates with the flag already
set.  The `Bool` reports success. -/
def simEnable (b : Backend) (v : SimVehicle) : SimVehicle × Backend × Bool :=
  if b.used < b.cap then
    ({ v with enabled := true, hasSource := true }, { b with used := b.used + 1 }, true)
  else
    ({ v with enabled := true }, b, false)

/-- Embedding of `Vehicle.disable` (Vehicle.py, lines 101-105) as seen by the admission loop:
clears the flag and releases the backend source if held. -/
def simDisable (b : Backend) (v : SimVehicle) : SimVehicle × Backend :=
  ({ v with enabled := false, hasSource := false },
    if v.hasSource then { b with used := b.used - 1 } else b)

/-- The enable/disable loop of `Simulation.update` (Simulation.py, lines 90-100) over
the distance-sorted vehicle list, carrying the enumeration index `i`, the current
`max_vehicle_count`, the number of warnings issued, and the backend pool.  A vehicle
is admitted when `max_vehicle_count is None or i <= max_vehicle_count`; a failed
`veh.enable()` is caught, lowers `max_vehicle_count` to `i - 1` and warns once;
beyond the bound an enabled vehicle is disabled. -/
def admitLoop (b : Backend) (maxCount : Option Int) (warnCount : Nat) (i : Int) :
    List SimVehicle → List SimVehicle × Option Int × Nat × Backend
  | [] => ([], maxCount, warnCount, b)
  | v :: rest =>
    if (match maxCount with | none => true | some m => decide (i ≤ m)) then
      if v.enabled then
        let r := admitLoop b maxCount warnCount (i + 1) rest
        (v :: r.1, r.2)
      else
        let e := simEnable b v
        if e.2.2 then
          let r := admitLoop e.2.1 maxCount warnCount (i + 1) rest
          (e.1 :: r.1, r.2)
        else
          let r := admitLoop e.2.1 (some (i - 1)) (warnCount + 1) (i + 1) rest
          (e.1 :: r.1, r.2)
    else
      if v.enabled then
        let d := simDisable b v
        let r := admitLoop d.2 maxCount warnCount (i + 1) rest
        (d.1 :: r.1, r.2)
      else
        let r := admitLoop b maxCount warnCount (i + 1) rest
        (v :: r.1, r.2)

/-- Squared planar distance of a vehicle from the ego position
(`(v.position[0]-ex)**2 + (v.position[1]-ey)**2`, Simulation.py line 88).  The code
sorts by the square root of this quantity; since the square root is strictly
monotone on nonnegative reals, sorting by the squared distance produces the same
order and the same ties. -/
def dist2 (ego : ℚ × ℚ) (v : SimVehicle) : ℚ :=
  (v.pos.1 - ego.1) * (v.pos.1 - ego.1) + (v.pos.2 - ego.2) * (v.pos.2 - ego.2)

/-- Stable insertion used to model Python's stable `sorted` (Simulation.py, line 89):
a vehicle is placed after every already-placed vehicle of smaller or equal key, so
ties keep roster iteration order. -/
def insertByDist (ego : ℚ × ℚ) (x : SimVehicle) : List SimVehicle → List SimVehicle
  | [] => [x]
  | y :: ys =>
    if dist2 ego y ≤ dist2 ego x then y :: insertByDist ego x ys else x :: y :: ys

/-- Embedding of `sorted(zip(distances, veh_list), key=lambda p: p[0])` (Simulation.py, lines
88-89): the roster sorted by distance from the ego, stably. -/
def sortByDist (ego : ℚ × ℚ) (l : List SimVehicle) : List SimVehicle :=
  l.foldl (fun acc v => insertByDist ego v acc) []

/-- The admission phase of `Simulation.update` (Simulation.py, lines 86-100): sort the
roster by distance from the ego and run the enable/disable loop from index 0.
Returns the updated roster (in ranked order), the new `max_vehicle_count`, the number
of warnings issued this step, and the backend pool. -/
def admission (ego : ℚ × ℚ) (maxCount : Option Int) (b : Backend)
    (vehs : List SimVehicle) : List SimVehicle × Option Int × Nat × Backend :=
  admitLoop b maxCount 0 0 (sortByDist ego vehs)

/-- C1: the claim states that after the admission phase the number of enabled
Emitters is at most the current effective capacity ceiling `max_vehicle_count`
whenever that bound is set.  The code compares `i <= self.max_vehicle_count`
(Simulation.py, line 91), so it admits ranks `0 .. max_vehicle_count`, i.e.
`max_vehicle_count + 1` vehicles.  This theorem evaluates the admission phase at a
reachable failing state (ceiling set to 0, two freshly added disabled vehicles in
range, ample backend capacity): one vehicle ends up enabled while the ceiling is 0,
and `1 ≤ 0` fails. -/
theorem admission_enabled_count_exceeds_ceiling :
    (admission (0, 0) (some 0) ⟨10, 0⟩
      [⟨(1, 0), false, false⟩, ⟨(2, 0), false, false⟩]).2.1 = some 0 ∧
    (admission (0, 0) (some 0) ⟨10, 0⟩
      [⟨(1, 0), false, false⟩, ⟨(2, 0), false, false⟩]).1.countP (fun v => v.enabled) = 1 ∧
    ¬ ((1 : Nat) ≤ 0) := by
  norm_num [admission, sortByDist, insertByDist, dist2, admitLoop, simEnable, simDisable,
    List.countP, List.countP.go]

/-- C2: the claim states that for an interior input the evaluation finds the
bracketing segment and interpolates on it.  The interpolation loop (Vehicle.py,
lines 64-68) returns at the first control point with `x >= curve[i][0]`, which for
any interior `x` is point 0, so the first segment's line is always used: at the
3-point curve `[(0,0),(1,1),(2,4)]` with `x = 3/2` — bracketed by the second
segment, as the last two conjuncts record — the code returns the first segment's
extrapolated value `0 + (3/2-0)*(1-0)/(1-0) = 3/2` and not the bracketing segment's
interpolation `1 + (3/2-1)*(4-1)/(2-1) = 5/2`. -/
theorem curve_interp_uses_first_segment :
    calculate_response_from_curve [((0 : ℚ), 0), (1, 1), (2, 4)] (3 / 2) =
      some (0 + (3 / 2 - 0) * (1 - 0) / (1 - 0)) ∧
    calculate_response_from_curve [((0 : ℚ), 0), (1, 1), (2, 4)] (3 / 2) ≠
      some (1 + (3 / 2 - 1) * (4 - 1) / (2 - 1)) ∧
    (1 : ℚ) ≤ 3 / 2 ∧ (3 : ℚ) / 2 < 2 := by
  norm_num [calculate_response_from_curve, interpLoop]

/-- The degradation scenario of the spec: five disabled emitters at distances 1..5
from the ego, a backend truly capable of 3 concurrent sources, no capacity bound
configured, one admission phase run. -/
def degScenario : List SimVehicle × Option Int × Nat × Backend :=
  admission (0, 0) none ⟨3, 0⟩
    [⟨(1, 0), false, false⟩, ⟨(2, 0), false, false⟩, ⟨(3, 0), false, false⟩,
     ⟨(4, 0), false, false⟩, ⟨(5, 0), false, false⟩]

/-- C3 counterexample: the claim predicts that after the degradation scenario the
controller's recorded ceiling equals 3.  The code sets `max_vehicle_count = i - 1`
(Simulation.py, line 96) with `i = 3` the 0-based rank at which the enable failed,
so the recorded ceiling is 2, not 3. -/
theorem degradation_recorded_ceiling_is_two :
    degScenario.2.1 = some 2 ∧ degScenario.2.1 ≠ some 3 := by
  norm_num [degScenario, admission, sortByDist, insertByDist, dist2, admitLoop,
    simEnable, simDisable]

/-- C3 amended: when enabling the emitter at 0-based rank `i` of the distance
ordering hits backend-capacity exhaustion, the controller lowers
`max_vehicle_count` to `i - 1` and surfaces exactly one non-fatal warning while the
step continues; in the 5-emitter scenario with backend capacity 3 the failure
occurs at rank 3, so after one step the recorded ceiling equals 2 (the `i <= max`
admission test still admits ranks 0..2 on later steps), exactly one warning is
issued, exactly 3 emitters hold backend sources — and 4 emitters carry the
`enabled` flag, because `Vehicle.enable` sets the flag before the failed source
allocation raises. -/
theorem degradation_scenario_amended :
    degScenario.2.1 = some 2 ∧
    degScenario.2.2.1 = 1 ∧
    degScenario.1.countP (fun v => v.hasSource) = 3 ∧
    degScenario.1.countP (fun v => v.enabled) = 4 ∧
    degScenario.2.2.2.used = 3 := by
  norm_num [degScenario, admission, sortByDist, insertByDist, dist2, admitLoop,
    simEnable, simDisable, List.countP, List.countP.go]

/-- C4 counterexample: the claim states that `set_gain` (like the other setters)
"updates the source's cached state unconditionally".  On a disabled source,
`set_gain` performs no backend call and records nothing at all — `VehicleSound` has
no gain attribute (Sounds.py, lines 82-86) — so calling it with two different gains
produces completely identical outcomes and the state is exactly the input state:
the gain set while disabled is lost rather than cached. -/
theorem set_gain_discards_gain_while_disabled :
    VehicleSound.set_gain
      (⟨"engine.wav", 1, (0, 0, 0), none, false, false, true, true, (0, 0, 0),
        (0, 0, 0)⟩ : VehicleSound ℚ) 5 =
    VehicleSound.set_gain
      (⟨"engine.wav", 1, (0, 0, 0), none, false, false, true, true, (0, 0, 0),
        (0, 0, 0)⟩ : VehicleSound ℚ) 7 ∧
    VehicleSound.set_gain
      (⟨"engine.wav", 1, (0, 0, 0), none, false, false, true, true, (0, 0, 0),
        (0, 0, 0)⟩ : VehicleSound ℚ) 5 =
    (⟨"engine.wav", 1, (0, 0, 0), none, false, false, true, true, (0, 0, 0),
      (0, 0, 0)⟩, []) := by
  constructor <;> rfl

/-- C4 amended: in every lifecycle state, `set_position`, `set_velocity`, `play` and
`pause` succeed, update the cached state unconditionally and forward to the backend
exactly when the source is enabled; `set_gain` succeeds and forwards
`base_gain * gain` to the backend exactly when enabled but updates no cached state
(the gain is not part of the cached state). -/
theorem setters_cache_and_forward (s : VehicleSound α) (p q : α × α × α) (g : α) :
    (VehicleSound.set_position s p).1.position = p ∧
    (VehicleSound.set_velocity s q).1.velocity = q ∧
    (VehicleSound.play s).1.playing = true ∧
    (VehicleSound.pause s).1.playing = false ∧
    (VehicleSound.set_gain s g).1 = s ∧
    ((VehicleSound.set_position s p).2 = [SndEvent.setPosition p] ↔ s.enabled = true) ∧
    ((VehicleSound.set_position s p).2 = [] ↔ s.enabled = false) ∧
    ((VehicleSound.set_velocity s q).2 = [SndEvent.setVelocity q] ↔ s.enabled = true) ∧
    ((VehicleSound.set_velocity s q).2 = [] ↔ s.enabled = false) ∧
    ((VehicleSound.play s).2 = [SndEvent.play] ↔ s.enabled = true) ∧
    ((VehicleSound.play s).2 = [] ↔ s.enabled = false) ∧
    ((VehicleSound.pause s).2 = [SndEvent.pause] ↔ s.enabled = true) ∧
    ((VehicleSound.pause s).2 = [] ↔ s.enabled = false) ∧
    ((VehicleSound.set_gain s g).2 = [SndEvent.setGain (s.base_gain * g)] ↔
      s.enabled = true) ∧
    ((VehicleSound.set_gain s g).2 = [] ↔ s.enabled = false) := by
  cases h : s.enabled <;>
    simp [VehicleSound.set_position, VehicleSound.set_velocity, VehicleSound.play,
      VehicleSound.pause, VehicleSound.set_gain, h]

/-- C5: `disable()` followed by `enable()` with no intervening state changes
reproduces the position, velocity and playing state held before `disable()`: the
cached fields survive the round trip, and `enable` reapplies them to the backend
(`set_position`/`set_velocity` calls always appear on the trace, the `play` call
appears exactly when the sound was playing). -/
theorem disable_enable_roundtrip_preserves_state (s : VehicleSound α) (off : Nat) :
    (VehicleSound.enable off (VehicleSound.disable s).1).1.position = s.position ∧
    (VehicleSound.enable off (VehicleSound.disable s).1).1.velocity = s.velocity ∧
    (VehicleSound.enable off (VehicleSound.disable s).1).1.playing = s.playing ∧
    SndEvent.setPosition s.position ∈ (VehicleSound.enable off (VehicleSound.disable s).1).2 ∧
    SndEvent.setVelocity s.velocity ∈ (VehicleSound.enable off (VehicleSound.disable s).1).2 ∧
    (SndEvent.play ∈ (VehicleSound.enable off (VehicleSound.disable s).1).2 ↔
      s.playing = true) := by
  cases hp : s.playing <;> cases hr : s.random_pos <;>
    simp [VehicleSound.enable, VehicleSound.disable, VehicleSound.set_position,
      VehicleSound.set_velocity, VehicleSound.play, hp, hr]

/-- C10: calling `disable()` on an already-disabled source — in particular one never
enabled since construction, whose backend handle is absent — raises no error (the
`if self.source is not None` guard prevents any backend call), leaves the enabled
flag false and every cached field unchanged; and on any source, a second `disable()`
is a complete no-op, so `disable` is idempotent. -/
theorem disable_idempotent_safe (s t : VehicleSound α)
    (h1 : s.enabled = false) (h2 : s.source = none) :
    VehicleSound.disable s = (s, []) ∧
    (VehicleSound.disable t).1.enabled = false ∧
    VehicleSound.disable (VehicleSound.disable t).1 = ((VehicleSound.disable t).1, []) := by
  obtain ⟨f, bg, rp, src, en, pl, lo, rnd, pos, vel⟩ := s
  simp only at h1 h2
  subst h1; subst h2
  obtain ⟨f2, bg2, rp2, src2, en2, pl2, lo2, rnd2, pos2, vel2⟩ := t
  simp [VehicleSound.disable]

/-- C10 witness: the theorem applied to a concrete never-enabled source and a
concrete enabled source. -/
theorem disable_idempotent_safe_witness :
    VehicleSound.disable
      (⟨"idle.wav", (1 : ℚ), (0, 0, 0), none, false, false, true, true, (0, 0, 0),
        (0, 0, 0)⟩ : VehicleSound ℚ) =
      (⟨"idle.wav", 1, (0, 0, 0), none, false, false, true, true, (0, 0, 0),
        (0, 0, 0)⟩, []) ∧
    (VehicleSound.disable
      (⟨"siren.wav", (2 : ℚ), (0, 0, 1), some (), true, true, true, false, (3, 4, 0),
        (1, 0, 0)⟩ : VehicleSound ℚ)).1.enabled = false ∧
    VehicleSound.disable (VehicleSound.disable
      (⟨"siren.wav", (2 : ℚ), (0, 0, 1), some (), true, true, true, false, (3, 4, 0),
        (1, 0, 0)⟩ : VehicleSound ℚ)).1 =
      ((VehicleSound.disable
        (⟨"siren.wav", (2 : ℚ), (0, 0, 1), some (), true, true, true, false, (3, 4, 0),
          (1, 0, 0)⟩ : VehicleSound ℚ)).1, []) :=
  disable_idempotent_safe
    (⟨"idle.wav", (1 : ℚ), (0, 0, 0), none, false, false, true, true, (0, 0, 0),
      (0, 0, 0)⟩ : VehicleSound ℚ)
    (⟨"siren.wav", (2 : ℚ), (0, 0, 1), some (), true, true, true, false, (3, 4, 0),
      (1, 0, 0)⟩ : VehicleSound ℚ) rfl rfl

/-- Under strictly ascending control-point inputs, the first input lies strictly
below the last. -/
theorem chain_head_lt_getLastD (c0 : α × α) (rest : List (α × α))
    (h : List.Chain' (fun p q : α × α => p.1 < q.1) (c0 :: rest)) (hne : rest ≠ []) :
    c0.1 < (rest.getLastD c0).1 := by
  induction rest generalizing c0 with
  | nil => exact absurd rfl hne
  | cons c1 rest2 ih =>
    have h01 : c0.1 < c1.1 := (List.chain'_cons.mp h).1
    have htail : List.Chain' (fun p q : α × α => p.1 < q.1) (c1 :: rest2) :=
      (List.chain'_cons.mp h).2
    cases rest2 with
    | nil => simpa using h01
    | cons c2 rest3 =>
      have hlast := ih c1 htail (by simp)
      calc c0.1 < c1.1 := h01
        _ < _ := hlast

/-- C6: for a response curve of at least two control points with strictly ascending
inputs, evaluation clamps outside the domain — at most the first input it returns
the first output, at least the last input it returns the last output; and on the
curve `[(0, 1/2), (5/2, 1)]` the evaluation gives `5/4 ↦ 3/4`, `-5 ↦ 1/2` and
`10 ↦ 1`. -/
theorem curve_clamps_and_examples (c0 : α × α) (rest : List (α × α)) (x : α)
    (hsort : List.Chain' (fun p q : α × α => p.1 < q.1) (c0 :: rest))
    (hne : rest ≠ []) :
    (x ≤ c0.1 → calculate_response_from_curve (c0 :: rest) x = some c0.2) ∧
    ((rest.getLastD c0).1 ≤ x →
      calculate_response_from_curve (c0 :: rest) x = some (rest.getLastD c0).2) ∧
    calculate_response_from_curve [((0 : α), 1 / 2), (5 / 2, 1)] (5 / 4) = some (3 / 4) ∧
    calculate_response_from_curve [((0 : α), 1 / 2), (5 / 2, 1)] (-5) = some (1 / 2) ∧
    calculate_response_from_curve [((0 : α), 1 / 2), (5 / 2, 1)] 10 = some 1 := by
  refine ⟨?_, ?_, ?_, ?_, ?_⟩
  · intro hx
    simp [calculate_response_from_curve, hx]
  · intro hx
    have hlt : c0.1 < (rest.getLastD c0).1 := chain_head_lt_getLastD c0 rest hsort hne
    have hnle : ¬ x ≤ c0.1 := not_le.mpr (lt_of_lt_of_le hlt hx)
    simp only [calculate_response_from_curve]
    rw [if_neg hnle, if_pos hx]
  · norm_num [calculate_response_from_curve, interpLoop]
  · norm_num [calculate_response_from_curve, interpLoop]
  · norm_num [calculate_response_from_curve, interpLoop]

/-- C6 witness: the clamp theorem applied to the concrete curve `[(0, 1/2), (5/2, 1)]`
at the out-of-domain input `10`, together with its example conjuncts. -/
theorem curve_clamps_and_examples_witness :
    calculate_response_from_curve [((0 : ℚ), 1 / 2), (5 / 2, 1)] 10 = some 1 ∧
    calculate_response_from_curve [((0 : ℚ), 1 / 2), (5 / 2, 1)] (-5) = some (1 / 2) ∧
    calculate_response_from_curve [((0 : ℚ), 1 / 2), (5 / 2, 1)] (5 / 4) = some (3 / 4) := by
  have h := curve_clamps_and_examples ((0 : ℚ), 1 / 2) [((5 : ℚ) / 2, 1)] 10
    (by norm_num [List.chain'_cons, List.chain'_singleton]) (by simp)
  refine ⟨?_, h.2.2.2.1, h.2.2.1⟩
  have h2 := h.2.1 (by norm_num [List.getLastD_cons, List.getLastD_nil])
  simpa [List.getLastD_cons, List.getLastD_nil] using h2

/-- Python's `450 % 360` is `90`. -/
theorem pymod_450_360 : pymod 450 360 = 90 := by
  have hfloor : ⌊(450 : ℝ) / 360⌋ = 1 := by
    rw [Int.floor_eq_iff]
    constructor <;> norm_num
  unfold pymod
  rw [hfloor]
  norm_num

/-- Python's `360 % 360` is `0`. -/
theorem pymod_360_360 : pymod 360 360 = 0 := by
  have hfloor : ⌊(360 : ℝ) / 360⌋ = 1 := by
    rw [show (360 : ℝ) / 360 = 1 by norm_num]
    exact Int.floor_one
  unfold pymod
  rw [hfloor]
  norm_num

/-- Heading 0° (north) converts to the geometric angle `π/2`. -/
theorem geometric_angle_zero : geometric_angle 0 = Real.pi / 2 := by
  unfold geometric_angle
  rw [show ((360 : ℝ) - 0 + 90) = 450 by norm_num, pymod_450_360]
  ring

/-- Heading 90° (east) converts to the geometric angle `0`. -/
theorem geometric_angle_ninety : geometric_angle 90 = 0 := by
  unfold geometric_angle
  rw [show ((360 : ℝ) - 90 + 90) = 360 by norm_num, pymod_360_360]
  norm_num

/-- C7: the compass-bearing conversion maps heading 0° (north) to direction
`(0, 1, 0)` and heading 90° (east) to `(1, 0, 0)`, both for the emitter velocity
vector and for the listener orientation vector; and for every heading and speed the
velocity vector is `(s * cos g, s * sin g, 0)` with
`g = ((360 - h + 90) mod 360) * π / 180`. -/
theorem heading_conversion (v : Vehicle ℝ) :
    (v.angle = 0 → get_velocity_vector v = (0, v.speed, 0)) ∧
    (v.angle = 90 → get_velocity_vector v = (v.speed, 0, 0)) ∧
    get_orientation_vector 0 = (0, 1, 0) ∧
    get_orientation_vector 90 = (1, 0, 0) ∧
    ∀ w : Vehicle ℝ, get_velocity_vector w =
      (w.speed * Real.cos (pymod (360 - w.angle + 90) 360 * Real.pi / 180),
       w.speed * Real.sin (pymod (360 - w.angle + 90) 360 * Real.pi / 180), 0) := by
  refine ⟨?_, ?_, ?_, ?_, fun w => rfl⟩
  · intro h
    simp [get_velocity_vector, h, geometric_angle_zero, Real.cos_pi_div_two,
      Real.sin_pi_div_two]
  · intro h
    simp [get_velocity_vector, h, geometric_angle_ninety, Real.cos_zero, Real.sin_zero]
  · simp [get_orientation_vector, geometric_angle_zero, Real.cos_pi_div_two,
      Real.sin_pi_div_two]
  · simp [get_orientation_vector, geometric_angle_ninety, Real.cos_zero, Real.sin_zero]

/-- C7 witness: the conversion theorem applied to concrete vehicles heading north
and east at speed 7. -/
theorem heading_conversion_witness :
    get_velocity_vector
      (⟨"ego", (0, 0, 0), 0, 7, 0, false, [], [], []⟩ : Vehicle ℝ) = (0, 7, 0) ∧
    get_velocity_vector
      (⟨"ego", (0, 0, 0), 90, 7, 0, false, [], [], []⟩ : Vehicle ℝ) = (7, 0, 0) :=
  ⟨(heading_conversion (⟨"ego", (0, 0, 0), 0, 7, 0, false, [], [], []⟩ : Vehicle ℝ)).1 rfl,
   (heading_conversion (⟨"ego", (0, 0, 0), 90, 7, 0, false, [], [], []⟩ : Vehicle ℝ)).2.1 rfl⟩

/-- C8: `add_sound` raises a TypeError exactly when a signal is given without a
response curve, and since the check precedes every append, a raise leaves the three
parallel lists unchanged; otherwise the triple is appended to all three lists. -/
theorem add_sound_raises_iff_signal_without_curve (v : Vehicle α) (snd : VehicleSound α)
    (sig : Option String) (oc : Option (RespCurve α)) :
    (sig.isSome = true ∧ oc = none →
      add_sound v snd sig oc =
        Except.error (PyError.typeError ("If signal is given, response_curve must also be given."))) ∧
    (¬ (sig.isSome = true ∧ oc = none) →
      add_sound v snd sig oc = Except.ok { v with
        sounds := v.sounds ++ [snd]
        signals := v.signals ++ [sig]
        response_curves := v.response_curves ++ [oc] }) := by
  cases sig <;> cases oc <;> simp [add_sound]

/-- C8 witness: the theorem applied to a concrete vehicle, once with a signal and no
curve (raising) and once with neither (appending). -/
theorem add_sound_witness :
    add_sound (⟨"veh0", (0, 0, 0), 0, 0, 0, false, [], [], []⟩ : Vehicle ℚ)
      (⟨"engine.wav", 1, (0, 0, 0), none, false, false, true, true, (0, 0, 0), (0, 0, 0)⟩)
      (some ("speed")) none =
      Except.error (PyError.typeError ("If signal is given, response_curve must also be given.")) ∧
    add_sound (⟨"veh0", (0, 0, 0), 0, 0, 0, false, [], [], []⟩ : Vehicle ℚ)
      (⟨"engine.wav", 1, (0, 0, 0), none, false, false, true, true, (0, 0, 0), (0, 0, 0)⟩)
      none none =
      Except.ok (⟨"veh0", (0, 0, 0), 0, 0, 0, false,
        [⟨"engine.wav", 1, (0, 0, 0), none, false, false, true, true, (0, 0, 0), (0, 0, 0)⟩],
        [none], [none]⟩ : Vehicle ℚ) :=
  ⟨(add_sound_raises_iff_signal_without_curve _ _ _ _).1 ⟨rfl, rfl⟩,
   (add_sound_raises_iff_signal_without_curve _ _ _ _).2 (by simp)⟩

/-- A non-empty point curve always evaluates to a value: the two clip branches
return, and an interior input satisfies the loop's first test `x >= curve[0][0]`
immediately. -/
theorem calculate_response_isSome (curve : List (α × α)) (x : α) (h : curve ≠ []) :
    (calculate_response_from_curve curve x).isSome = true := by
  cases curve with
  | nil => exact absurd rfl h
  | cons c0 rest =>
    by_cases h1 : x ≤ c0.1
    · simp [calculate_response_from_curve, h1]
    · by_cases h2 : (rest.getLastD c0).1 ≤ x
      · simp only [calculate_response_from_curve]
        rw [if_neg h1, if_pos h2]
        rfl
      · have h3 : c0.1 ≤ x := le_of_lt (not_le.mp h1)
        cases rest with
        | nil => exact absurd h3 (by simpa using h2)
        | cons c1 rest2 =>
          simp only [calculate_response_from_curve]
          rw [if_neg h1, if_neg h2]
          simp [interpLoop, h3]

/-- Helper for C9: error behaviour of the `update_sounds` loop over the three
parallel lists.  Under the construction invariants — signals as long as sounds,
every signalled triple holding a curve, stored point curves non-empty — the loop
fails exactly when some non-null signal fails to resolve on the vehicle, and the
only error it can raise is the ValueError of the AttributeError branch. -/
theorem update_sounds_aux_spec (v : Vehicle ℝ) :
    ∀ (ss : List (VehicleSound ℝ)) (sigs : List (Option String))
      (ocs : List (Option (RespCurve ℝ))),
      sigs.length = ss.length →
      List.Forall₂ (fun sg oc => sg.isSome = true → oc.isSome = true) sigs ocs →
      (∀ oc ∈ ocs, ∀ c, oc = some c → curveWF c) →
      ((∃ e, update_sounds_aux v ss sigs ocs = Except.error e) ↔
        ∃ name, some name ∈ sigs ∧ vgetattr v name = none) ∧
      (∀ e, update_sounds_aux v ss sigs ocs = Except.error e →
        ∃ msg, e = PyError.valueError msg) := by
  intro ss
  induction ss with
  | nil =>
    intro sigs ocs hlen _ _
    have hs : sigs = [] := List.length_eq_zero.mp (by simpa using hlen)
    subst hs
    simp [update_sounds_aux]
  | cons snd ss ih =>
    intro sigs ocs hlen hf hwf
    cases hf with
    | nil => simp at hlen
    | cons hrel hftail =>
      rename_i sig b sigs2 ocs2
      have hlen2 : sigs2.length = ss.length := by simpa using hlen
      have hwf2 : ∀ oc ∈ ocs2, ∀ c, oc = some c → curveWF c :=
        fun oc hm c hc => hwf oc (List.mem_cons_of_mem _ hm) c hc
      have IH := ih sigs2 ocs2 hlen2 hftail hwf2
      cases sig with
      | none =>
        cases hrec : update_sounds_aux v ss sigs2 ocs2 with
        | error e0 =>
          constructor
          · constructor
            · intro _
              obtain ⟨name, hmem, hget⟩ := IH.1.mp ⟨e0, hrec⟩
              exact ⟨name, List.mem_cons_of_mem _ hmem, hget⟩
            · intro _
              exact ⟨e0, by simp [update_sounds_aux, hrec]⟩
          · intro e he
            simp [update_sounds_aux, hrec] at he
            exact he ▸ IH.2 e0 hrec
        | ok r0 =>
          constructor
          · constructor
            · rintro ⟨e, he⟩
              simp [update_sounds_aux, hrec] at he
            · rintro ⟨name, hmem, hget⟩
              rcases List.mem_cons.mp hmem with h | h
              · simp at h
              · obtain ⟨e, he⟩ := IH.1.mpr ⟨name, h, hget⟩
                rw [hrec] at he
                cases he
          · intro e he
            simp [update_sounds_aux, hrec] at he
      | some name =>
        cases hget : vgetattr v name with
        | none =>
          constructor
          · constructor
            · intro _
              exact ⟨name, List.mem_cons_self _ _, hget⟩
            · intro _
              exact ⟨PyError.valueError ("Signal " ++ name ++ " not in class"),
                by simp [update_sounds_aux, hget]⟩
          · intro e he
            simp [update_sounds_aux, hget] at he
            exact ⟨"Signal " ++ name ++ " not in class", he.symm⟩
        | some val =>
          have hsome : b.isSome = true := hrel rfl
          obtain ⟨c, rfl⟩ := Option.isSome_iff_exists.mp hsome
          have hcwf : curveWF c := hwf (some c) (List.mem_cons_self _ _) c rfl
          have hrhs : (∃ nm, some nm ∈ some name :: sigs2 ∧ vgetattr v nm = none) ↔
              ∃ nm, some nm ∈ sigs2 ∧ vgetattr v nm = none := by
            constructor
            · rintro ⟨nm, hmem, hg⟩
              rcases List.mem_cons.mp hmem with h | h
              · obtain rfl : nm = name := by simpa using h
                rw [hget] at hg
                cases hg
              · exact ⟨nm, h, hg⟩
            · rintro ⟨nm, hmem, hg⟩
              exact ⟨nm, List.mem_cons_of_mem _ hmem, hg⟩
          cases c with
          | fn f =>
            cases hrec : update_sounds_aux v ss sigs2 ocs2 with
            | error e0 =>
              constructor
              · constructor
                · intro _
                  exact hrhs.mpr (IH.1.mp ⟨e0, hrec⟩)
                · intro _
                  exact ⟨e0, by simp [update_sounds_aux, hget, hrec]⟩
              · intro e he
                simp [update_sounds_aux, hget, hrec] at he
                exact he ▸ IH.2 e0 hrec
            | ok r0 =>
              constructor
              · constructor
                · rintro ⟨e, he⟩
                  simp [update_sounds_aux, hget, hrec] at he
                · intro hx
                  obtain ⟨e, he⟩ := IH.1.mpr (hrhs.mp hx)
                  rw [hrec] at he
                  cases he
              · intro e he
                simp [update_sounds_aux, hget, hrec] at he
          | pts l =>
            have hne : l ≠ [] := by simpa [curveWF] using hcwf
            obtain ⟨g, hg⟩ :=
              Option.isSome_iff_exists.mp (calculate_response_isSome l val hne)
            cases hrec : update_sounds_aux v ss sigs2 ocs2 with
            | error e0 =>
              constructor
              · constructor
                · intro _
                  exact hrhs.mpr (IH.1.mp ⟨e0, hrec⟩)
                · intro _
                  exact ⟨e0, by simp [update_sounds_aux, hget, hg, hrec]⟩
              · intro e he
                simp [update_sounds_aux, hget, hg, hrec] at he
                exact he ▸ IH.2 e0 hrec
            | ok r0 =>
              constructor
              · constructor
                · rintro ⟨e, he⟩
                  simp [update_sounds_aux, hget, hg, hrec] at he
                · intro hx
                  obtain ⟨e, he⟩ := IH.1.mpr (hrhs.mp hx)
                  rw [hrec] at he
                  cases he
              · intro e he
                simp [update_sounds_aux, hget, hg, hrec] at he

/-- Lemma: `update_sounds` errors exactly when its loop over the three lists errors, with
the same exception. -/
theorem update_sounds_error_iff_aux (v : Vehicle ℝ) (e : PyError) :
    update_sounds v = Except.error e ↔
      update_sounds_aux v v.sounds v.signals v.response_curves = Except.error e := by
  unfold update_sounds
  cases update_sounds_aux v v.sounds v.signals v.response_curves <;> simp

/-- C9: under the construction invariants maintained by `add_sound` (signals list as
long as the sounds list, a signalled triple always holds a curve, stored point
curves non-empty), `update_sounds` reads each non-null signal off the vehicle and
fails if and only if some non-null signal name does not resolve to a kinematic
attribute; triples with a null signal are skipped without error, and any raised
error is the lookup ValueError. -/
theorem update_sounds_lookup_error_iff (v : Vehicle ℝ)
    (hlen : v.signals.length = v.sounds.length)
    (hpair : List.Forall₂ (fun sg oc => sg.isSome = true → oc.isSome = true)
      v.signals v.response_curves)
    (hwf : ∀ oc ∈ v.response_curves, ∀ c, oc = some c → curveWF c) :
    ((∃ e, update_sounds v = Except.error e) ↔
      ∃ name, some name ∈ v.signals ∧ vgetattr v name = none) ∧
    (∀ e, update_sounds v = Except.error e → ∃ msg, e = PyError.valueError msg) := by
  have h := update_sounds_aux_spec v v.sounds v.signals v.response_curves hlen hpair hwf
  constructor
  · rw [← h.1]
    constructor
    · rintro ⟨e, he⟩
      exact ⟨e, (update_sounds_error_iff_aux v e).mp he⟩
    · rintro ⟨e, he⟩
      exact ⟨e, (update_sounds_error_iff_aux v e).mpr he⟩
  · intro e he
    exact h.2 e ((update_sounds_error_iff_aux v e).mp he)

/-- A concrete vehicle whose single sound is wired to the unresolvable signal name
`nitro`, used to witness the C9 theorem. -/
noncomputable def vNitro : Vehicle ℝ :=
  ⟨"veh1", (0, 0, 0), 0, 0, 0, false,
    [⟨"x.wav", 1, (0, 0, 0), none, false, false, true, true, (0, 0, 0), (0, 0, 0)⟩],
    [some ("nitro")], [some (RespCurve.fn (fun x => x))]⟩

/-- C9 witness: the theorem applied to `vNitro`, whose construction invariants hold
by computation. -/
theorem update_sounds_lookup_error_iff_witness :
    vNitro.signals.length = vNitro.sounds.length ∧
    ((∃ e, update_sounds vNitro = Except.error e) ↔
      ∃ name, some name ∈ vNitro.signals ∧ vgetattr vNitro name = none) ∧
    (∀ e, update_sounds vNitro = Except.error e → ∃ msg, e = PyError.valueError msg) :=
  ⟨rfl,
   (update_sounds_lookup_error_iff vNitro rfl
      (List.Forall₂.cons (fun _ => rfl) List.Forall₂.nil)
      (by simp [vNitro, curveWF])).1,
   (update_sounds_lookup_error_iff vNitro rfl
      (List.Forall₂.cons (fun _ => rfl) List.Forall₂.nil)
      (by simp [vNitro, curveWF])).2⟩

end SumoSound
